import Mathlib

/-!
Verification of the GitLab webhook code-review service (`main.py`).

We shallowly embed the Flask application's routes (`POST /webhook`,
`GET /health`) and the two event handlers (`process_merge_request`,
`process_push_event`) as pure Lean functions.  JSON payloads are modelled
by an inductive `Json` type with Python dictionary semantics (KeyError /
TypeError / AttributeError on bad access, Python truthiness, Python
`str()` / `repr()` rendering).  The network is modelled by a `World`
record supplying the responses of the three outbound calls a handler can
make (the GitLab fetch, the review generation, the comment post); each
route function records the outbound calls it actually performs in a
trace, so that theorems can speak about which external interactions
happened.
-/

/-! ## Python string primitives -/

/-- The single-quote character, written by code point so the file stays free
of stray quote characters. -/
def sqc : Char := Char.ofNat 39

/-- The double-quote character. -/
def dqc : Char := Char.ofNat 34

/-- Python `repr` of a string: single quotes, unless the string contains a
single quote and no double quote.  (Escaping of embedded quotes inside the
string is elided; no value in this development needs it.) -/
def pyReprStr (s : String) : String :=
  if s.data.contains sqc && !s.data.contains dqc then
    String.singleton dqc ++ s ++ String.singleton dqc
  else
    String.singleton sqc ++ s ++ String.singleton sqc

/-- The whitespace characters stripped by Python `str.strip()`. -/
def pyWs : List Char := [' ', '\t', '\n', '\r', Char.ofNat 11, Char.ofNat 12]

/-- Python `str.strip()`. -/
def pyStrip (s : String) : String :=
  ⟨((s.data.dropWhile (pyWs.contains ·)).reverse.dropWhile (pyWs.contains ·)).reverse⟩

/-- Helper for `pySplitNl`: split a character list at a separator,
keeping empty pieces (Python `str.split(sep)` semantics). -/
def pySplitAux (sep : Char) : List Char → List Char → List String
  | [], acc => [⟨acc.reverse⟩]
  | c :: rest, acc =>
      if c = sep then ⟨acc.reverse⟩ :: pySplitAux sep rest []
      else pySplitAux sep rest (c :: acc)

/-- Python `s.split("\n")`. -/
def pySplitNl (s : String) : List String := pySplitAux '\n' s.data []

/-! ## JSON values with Python access semantics -/

/-- JSON values, as delivered by `request.json` / `response.json()`. -/
inductive Json where
  | null
  | bool (b : Bool)
  | num (n : Int)
  | str (s : String)
  | arr (elems : List Json)
  | obj (fields : List (String × Json))

/-- Association-list lookup of a dictionary key (first match). -/
def findField : List (String × Json) → String → Option Json
  | [], _ => none
  | (k, v) :: rest, key => if k = key then some v else findField rest key

/-- Python exceptions that the embedded code can raise and catch. -/
inductive PyErr where
  | keyError (k : String)
  | typeError (msg : String)
  | attrError (msg : String)
  deriving DecidableEq, Repr

/-- Python `str(e)` of an exception: a `KeyError` prints the repr of its
key, the others print their message. -/
def PyErr.pyStr : PyErr → String
  | .keyError k => pyReprStr k
  | .typeError m => m
  | .attrError m => m

/-- Python `payload[key]` subscription: `KeyError` on a missing dictionary
key, `TypeError` on a non-dictionary receiver. -/
def Json.pyItem : Json → String → Except PyErr Json
  | .obj fs, key =>
    match findField fs key with
    | some v => .ok v
    | none => .error (.keyError key)
  | .str _, _ => .error (.typeError "string indices must be integers")
  | .arr _, _ => .error (.typeError "list indices must be integers")
  | _, _ => .error (.typeError "object is not subscriptable")

/-- Python `payload.get(key)`: `None` on a missing key, `AttributeError`
when the receiver is not a dictionary. -/
def Json.pyGet : Json → String → Except PyErr (Option Json)
  | .obj fs, key => .ok (findField fs key)
  | _, _ => .error (.attrError "object has no attribute get")

/-- Python `payload.get(key, default)`. -/
def Json.pyGetD (j : Json) (key : String) (d : Json) : Except PyErr Json :=
  (j.pyGet key).map (fun o => o.getD d)

/-- Python truthiness of a JSON value. -/
def Json.pyTruthy : Json → Bool
  | .null => false
  | .bool b => b
  | .num n => n != 0
  | .str s => s != ""
  | .arr xs => !xs.isEmpty
  | .obj fs => !fs.isEmpty

/-- Python `len()`: defined for strings, lists and dictionaries. -/
def Json.pyLen : Json → Except PyErr Nat
  | .str s => .ok s.length
  | .arr xs => .ok xs.length
  | .obj fs => .ok fs.length
  | _ => .error (.typeError "object has no len")

/-- Python iteration: a list yields its elements, a string its characters,
a dictionary its keys; everything else raises `TypeError`. -/
def Json.pyIter : Json → Except PyErr (List Json)
  | .arr xs => .ok xs
  | .str s => .ok (s.data.map (fun c => Json.str (String.singleton c)))
  | .obj fs => .ok (fs.map (fun kv => Json.str kv.1))
  | _ => .error (.typeError "object is not iterable")

/-- Python `str.join` demands string elements; anything else raises `TypeError`. -/
def Json.asStr : Json → Except PyErr String
  | .str s => .ok s
  | _ => .error (.typeError "sequence item: expected str instance")

mutual
/-- Python `repr()` of a JSON value. -/
def Json.pyRepr : Json → String
  | .null => "None"
  | .bool true => "True"
  | .bool false => "False"
  | .num n => toString n
  | .str s => pyReprStr s
  | .arr xs => "[" ++ pyReprElems xs ++ "]"
  | .obj fs => "\x7b" ++ pyReprFields fs ++ "\x7d"

/-- Comma-separated reprs of list elements. -/
def pyReprElems : List Json → String
  | [] => ""
  | [x] => Json.pyRepr x
  | x :: xs => Json.pyRepr x ++ ", " ++ pyReprElems xs

/-- Comma-separated reprs of dictionary entries. -/
def pyReprFields : List (String × Json) → String
  | [] => ""
  | [(k, v)] => pyReprStr k ++ ": " ++ Json.pyRepr v
  | (k, v) :: fs => pyReprStr k ++ ": " ++ Json.pyRepr v ++ ", " ++ pyReprFields fs
end

/-- Python `str()` of a JSON value as interpolated into an f-string:
a string renders as itself, everything else as its repr. -/
def Json.pyStr : Json → String
  | .str s => s
  | j => j.pyRepr

/-- Is this JSON value exactly the given string?  This is Python
`value == "literal"` for a string literal. -/
def jsonIsStr : Json → String → Bool
  | .str t, s => t == s
  | _, _ => false

/-- Python `value == "literal"` where `value` may be `None`
(the result of `dict.get` on a missing key). -/
def optIsStr : Option Json → String → Bool
  | some j, s => jsonIsStr j s
  | none, _ => false

/-- F-string rendering of a possibly-`None` value (`None` prints as
`"None"`). -/
def optFStr : Option Json → String
  | none => "None"
  | some j => j.pyStr

/-! ## Configuration (environment variables) -/

/-- The environment variables the application reads.  `none` means the
variable is unset. -/
structure Env where
  OPENAI_API_KEY : Option String
  GITLAB_TOKEN : Option String
  GITLAB_URL : Option String
  EXPECTED_GITLAB_TOKEN : Option String
  AZURE_OPENAI_API_BASE : Option String
  AZURE_OPENAI_API_VERSION : Option String
  OPENAI_API_MODEL : Option String

/-- Python `bool(os.environ.get(var))`: false when unset or empty. -/
def envTruthy : Option String → Bool
  | none => false
  | some s => s != ""

/-- F-string rendering of a possibly-unset environment variable. -/
def fStrOpt : Option String → String
  | none => "None"
  | some s => s

/-- Python `os.environ.get(var) or default`: the default when the variable
is unset or empty. -/
def pyOrD : Option String → String → String
  | none, d => d
  | some s, d => if s == "" then d else s

/-! ## The external world and call traces -/

/-- One outbound HTTP interaction performed by a handler. -/
inductive Call where
  | fetch (url : String)
  | generate (model : String) (contents : List String)
  | postComment (url : String) (body : String)
  deriving DecidableEq, Repr

/-- The responses the external services give during one webhook delivery:
the GitLab fetch (status and parsed JSON body), the review generation
(generated text, or the text of the exception it raised), and the status
of the comment post. -/
structure World where
  fetchStatus : Nat
  fetchBody : Json
  genResult : Except String String
  postStatus : Nat

/-- The outcome of a route invocation: the HTTP response body and status
code returned to the webhook caller, plus the trace of outbound calls. -/
structure RouteResult where
  body : String
  code : Nat
  calls : List Call

/-- Keep the models of the generation calls in a trace. -/
def genModels : List Call → List String
  | [] => []
  | .generate m _ :: rest => m :: genModels rest
  | _ :: rest => genModels rest

/-- Keep the bodies of the comment-post calls in a trace. -/
def postBodies : List Call → List String
  | [] => []
  | .postComment _ b :: rest => b :: postBodies rest
  | _ :: rest => postBodies rest

/-- Is this call a GitLab fetch? -/
def isFetch : Call → Bool
  | .fetch _ => true
  | _ => false

/-! ## Fixed strings from `main.py` -/

/-- The attribution footer appended to every review comment. -/
def footer : String :=
  "\n\nEste comentario fue generado por un pato de inteligencia artificial."

/-- System message of the merge-request prompt (line 154). -/
def mr_system : String :=
  "Eres un desarrollador senior especializado en arquitectura de software, revisando cambios de código con enfoque en arquitectura hexagonal, separación de responsabilidades, orientación a objetos y mejores prácticas de desarrollo."

/-- The `pre_prompt` of the merge-request handler (line 137). -/
def mr_pre_prompt : String :=
  "Revisa los siguientes cambios de código git diff, enfocándote en estructura, seguridad, claridad, arquitectura hexagonal, separación de responsabilidades y orientación a objetos."

/-- The `questions` of the merge-request handler (lines 139-151), a Python
triple-quoted string with its leading newline and indentation. -/
def mr_questions : String :=
  "\n        Preguntas:\n        1. Resume los cambios principales.\n        2. ¿Es claro el código nuevo/modificado?\n        3. ¿Son descriptivos los comentarios y nombres?\n        4. ¿Se puede reducir la complejidad? ¿Ejemplos?\n        5. ¿Algún bug? ¿Dónde?\n        6. ¿Problemas de seguridad potenciales?\n        7. ¿Los cambios respetan la arquitectura hexagonal (puertos y adaptadores)?\n        8. ¿Hay una adecuada separación de incumbencias (responsabilidades)?\n        9. ¿El código está bien orientado a objetos (encapsulación, herencia, polimorfismo)?\n        10. ¿Sugerencias para alineación con mejores prácticas?\n        "

/-- Assistant-priming message of the merge-request prompt (line 156). -/
def mr_assistant : String :=
  "Responde en markdown compatible con GitLab. Incluye una versión concisa de cada pregunta en tu respuesta, prestando especial atención a los aspectos arquitectónicos y de diseño."

/-- Fallback apology of the merge-request handler (line 177). -/
def mr_fallback : String :=
  "Lo siento, no me siento bien hoy. Por favor, pide a un humano que revise este PR."

/-- System message of the push prompt (line 250). -/
def push_system : String :=
  "Eres un desarrollador senior especializado en arquitectura de software, revisando cambios de código de un commit con enfoque en arquitectura hexagonal, separación de responsabilidades, orientación a objetos y mejores prácticas de desarrollo."

/-- The `pre_prompt` of the push handler (line 234). -/
def push_pre_prompt : String :=
  "Revisa el git diff de un commit reciente, enfocándote en claridad, estructura, seguridad, arquitectura hexagonal, separación de responsabilidades y orientación a objetos."

/-- The `questions` of the push handler (lines 236-247). -/
def push_questions : String :=
  "\n        Preguntas:\n        1. Resume los cambios (estilo Changelog).\n        2. ¿Claridad del código agregado/modificado?\n        3. ¿Adecuación de comentarios y nombres?\n        4. ¿Simplificación sin romper funcionalidad? ¿Ejemplos?\n        5. ¿Algún bug? ¿Dónde?\n        6. ¿Problemas de seguridad potenciales?\n        7. ¿Los cambios respetan la arquitectura hexagonal (puertos y adaptadores)?\n        8. ¿Hay una adecuada separación de incumbencias (responsabilidades)?\n        9. ¿El código está bien orientado a objetos (encapsulación, herencia, polimorfismo)?\n        "

/-- Assistant-priming message of the push prompt (line 252). -/
def push_assistant : String :=
  "Responde en markdown para GitLab. Incluye versiones concisas de las preguntas en la respuesta, prestando especial atención a los aspectos arquitectónicos y de diseño."

/-- Fallback apology of the push handler (line 274). -/
def push_fallback : String :=
  "Lo siento, no me siento bien hoy. Por favor, pide a un humano que revise este cambio de código."

/-! ## The merge-request handler (`process_merge_request`, lines 101-203) -/

/-- The `except` clauses of `process_merge_request` (lines 198-203):
`KeyError e` becomes `400` with `f"Campo faltante en el payload: {e}"`,
any other exception becomes `500` with `f"Error procesando MR: {e}"`. -/
def mrCatch (e : PyErr) (calls : List Call) : RouteResult :=
  match e with
  | .keyError k => ⟨"Campo faltante en el payload: " ++ pyReprStr k, 400, calls⟩
  | e => ⟨"Error procesando MR: " ++ e.pyStr, 500, calls⟩

/-- The URL `f"{gitlab_url}/projects/{project_id}/merge_requests/{mr_id}/changes"`
(line 117). -/
def mrChangesUrl (env : Env) (pid iid : Json) : String :=
  fStrOpt env.GITLAB_URL ++ "/projects/" ++ pid.pyStr ++ "/merge_requests/" ++ iid.pyStr ++ "/changes"

/-- The URL `f"{gitlab_url}/projects/{project_id}/merge_requests/{mr_id}/notes"`
(line 184). -/
def mrNotesUrl (env : Env) (pid iid : Json) : String :=
  fStrOpt env.GITLAB_URL ++ "/projects/" ++ pid.pyStr ++ "/merge_requests/" ++ iid.pyStr ++ "/notes"

/-- Python `diffs = [change["diff"] for change in mr_changes["changes"]]` followed
by `''.join(diffs)` (lines 133, 155): the comprehension first raises any
`KeyError`, then the join demands string elements. -/
def mrExtractDiffs (body : Json) : Except PyErr (List String) := do
  let cs ← body.pyItem "changes"
  let elems ← cs.pyIter
  let diffJs ← elems.mapM (fun c => c.pyItem "diff")
  diffJs.mapM Json.asStr

/-- The single input string sent to the generation endpoint by the
merge-request handler: `'\n\n'.join([message["content"] for message in
messages])` (line 169). -/
def mrGenInput (diffs : List String) : String :=
  mr_system ++ "\n\n" ++ (mr_pre_prompt ++ "\n\n" ++ String.join diffs ++ mr_questions) ++ "\n\n" ++ mr_assistant

/-- The review text the merge-request handler posts, as a function of the
generation outcome (lines 173-179): on success the stripped text plus the
footer; on failure the apology, the footer, then the error text. -/
def mrAnswer : Except String String → String
  | .ok txt => pyStrip txt ++ footer
  | .error e => mr_fallback ++ footer ++ "\n\nError: " ++ e

/-- Function `process_merge_request` (lines 101-203).  Extraction order, the
`action != "open"` short-circuit, the non-200 fetch check, the inner
generation `try`, and the ignored comment-post status follow the source
line by line. -/
def process_merge_request (env : Env) (w : World) (payload : Json) : RouteResult :=
  match payload.pyItem "object_attributes" >>= (Json.pyItem · "action") with
  | .error e => mrCatch e []
  | .ok action =>
    if !(jsonIsStr action "open") then
      ⟨"No es un MR de apertura", 200, []⟩
    else
      match (do
        let pid ← payload.pyItem "project" >>= (Json.pyItem · "id")
        let iid ← payload.pyItem "object_attributes" >>= (Json.pyItem · "iid")
        let _pname ← payload.pyItem "project" >>= (Json.pyItem · "name")
        pure (pid, iid) : Except PyErr (Json × Json)) with
      | .error e => mrCatch e []
      | .ok (pid, iid) =>
        if w.fetchStatus ≠ 200 then
          ⟨"Error al obtener cambios del MR: " ++ toString w.fetchStatus, 500,
            [Call.fetch (mrChangesUrl env pid iid)]⟩
        else
          match mrExtractDiffs w.fetchBody with
          | .error e => mrCatch e [Call.fetch (mrChangesUrl env pid iid)]
          | .ok diffs =>
            ⟨"OK", 200,
              [Call.fetch (mrChangesUrl env pid iid),
               Call.generate "llama-3.1-8b-instant" [mrGenInput diffs],
               Call.postComment (mrNotesUrl env pid iid) (mrAnswer w.genResult)]⟩

/-! ## The push handler (`process_push_event`, lines 204-300) -/

/-- The `except` clauses of `process_push_event` (lines 295-300). -/
def pushCatch (e : PyErr) (calls : List Call) : RouteResult :=
  match e with
  | .keyError k => ⟨"Campo faltante en el payload: " ++ pyReprStr k, 400, calls⟩
  | e => ⟨"Error procesando push: " ++ e.pyStr, 500, calls⟩

/-- The URL `f"{gitlab_url}/projects/{project_id}/repository/commits/{commit_id}/diff"`
(line 214). -/
def pushCommitUrl (env : Env) (pid cid : Json) : String :=
  fStrOpt env.GITLAB_URL ++ "/projects/" ++ pid.pyStr ++ "/repository/commits/" ++ cid.pyStr ++ "/diff"

/-- The URL `f"{gitlab_url}/projects/{project_id}/repository/commits/{commit_id}/comments"`
(line 281). -/
def pushCommentsUrl (env : Env) (pid cid : Json) : String :=
  fStrOpt env.GITLAB_URL ++ "/projects/" ++ pid.pyStr ++ "/repository/commits/" ++ cid.pyStr ++ "/comments"

/-- Python `len(changes)` followed by
`''.join([str(change) for change in changes])` (lines 228-230). -/
def pushChangesString (body : Json) : Except PyErr String := do
  let _len ← body.pyLen
  let elems ← body.pyIter
  pure (String.join (elems.map Json.pyStr))

/-- The user-turn content of the push prompt (line 251). -/
def pushUserContent (changes_string : String) : String :=
  push_pre_prompt ++ "\n\n" ++ changes_string ++ push_questions

/-- The review text the push handler posts, as a function of the
generation outcome (lines 267-276): on success the stripped text, a
reference header, each line of the questions, then the footer; on failure
the apology, the footer, then the error text. -/
def pushAnswer : Except String String → String
  | .ok txt =>
      pyStrip txt ++ "\n\nPara referencia, me dieron las siguientes preguntas: \n"
        ++ String.join ((pySplitNl push_questions).map (fun q => "\n" ++ q)) ++ footer
  | .error e => push_fallback ++ footer ++ "\n\nError: " ++ e

/-- Function `process_push_event` (lines 204-300). -/
def process_push_event (env : Env) (w : World) (payload : Json) : RouteResult :=
  match (do
    let pid ← payload.pyItem "project_id"
    let cid ← payload.pyItem "after"
    let pj ← payload.pyGetD "project" (Json.obj [])
    let _pname ← pj.pyGetD "name" (Json.str "Proyecto desconocido")
    pure (pid, cid) : Except PyErr (Json × Json)) with
  | .error e => pushCatch e []
  | .ok (pid, cid) =>
    if w.fetchStatus ≠ 200 then
      ⟨"Error al obtener diff del commit: " ++ toString w.fetchStatus, 500,
        [Call.fetch (pushCommitUrl env pid cid)]⟩
    else
      match pushChangesString w.fetchBody with
      | .error e => pushCatch e [Call.fetch (pushCommitUrl env pid cid)]
      | .ok changes_string =>
        ⟨"OK", 200,
          [Call.fetch (pushCommitUrl env pid cid),
           Call.generate (pyOrD env.OPENAI_API_MODEL "gpt-3.5-turbo")
             [push_system, pushUserContent changes_string, push_assistant],
           Call.postComment (pushCommentsUrl env pid cid) (pushAnswer w.genResult)]⟩

/-! ## The webhook dispatcher (`webhook`, lines 59-99) -/

/-- An inbound HTTP request to `/webhook`: the `X-Gitlab-Token` header
value (if present) and the parse result of the body (`none` when
`request.json` raises). -/
structure Request where
  xGitlabToken : Option String
  jsonBody : Option Json

/-- The part of `webhook` after the token check (lines 77-99): body
parsing, the emptiness check, and routing on `object_kind`.  A truthy
non-dictionary body makes `payload.get` raise an uncaught
`AttributeError`, which Flask's registered 500 handler (lines 338-341)
turns into `"Error interno del servidor", 500`. -/
def webhook_route (env : Env) (w : World) (req : Request) : RouteResult :=
  match req.jsonBody with
  | none => ⟨"Error en el payload JSON", 400, []⟩
  | some payload =>
    if !payload.pyTruthy then
      ⟨"Payload vacío", 400, []⟩
    else
      match payload.pyGet "object_kind" with
      | .error _ => ⟨"Error interno del servidor", 500, []⟩
      | .ok kind =>
        if optIsStr kind "merge_request" then process_merge_request env w payload
        else if optIsStr kind "push" then process_push_event env w payload
        else ⟨"Tipo de evento no soportado: " ++ optFStr kind, 200, []⟩

/-- Function `webhook` (lines 59-99): the `X-Gitlab-Token` header is compared for
exact equality with `os.environ.get("EXPECTED_GITLAB_TOKEN")`; a mismatch
returns `"No autorizado", 403` before the body is touched. -/
def webhook (env : Env) (w : World) (req : Request) : RouteResult :=
  if req.xGitlabToken ≠ env.EXPECTED_GITLAB_TOKEN then
    ⟨"No autorizado", 403, []⟩
  else
    webhook_route env w req

/-! ## The health endpoint (`health_check`, lines 302-320) -/

/-- The status dictionary built by `health_check`. -/
structure HealthStatus where
  status : String
  openai_configured : Bool
  gitlab_configured : Bool
  expected_token_configured : Bool
  azure_configured : Bool
  deriving DecidableEq, Repr

/-- Function `health_check` (lines 302-320).  Note that `all(status.values())`
ranges over all five dictionary values, `azure_configured` included. -/
def health_check (env : Env) : HealthStatus × Nat :=
  let status : HealthStatus :=
    ⟨"healthy",
     envTruthy env.OPENAI_API_KEY,
     envTruthy env.GITLAB_TOKEN && envTruthy env.GITLAB_URL,
     envTruthy env.EXPECTED_GITLAB_TOKEN,
     envTruthy env.AZURE_OPENAI_API_BASE⟩
  let all_configured :=
    status.status != "" &&
    (status.openai_configured &&
     (status.gitlab_configured &&
      (status.expected_token_configured && status.azure_configured)))
  if all_configured then (status, 200)
  else ({ status with status := "unhealthy" }, 500)

/-! ## Concrete configurations, payloads and worlds used by witnesses -/

/-- A fully configured environment (all four required variables, the
optional Azure base URL, and a model override). -/
def envGood : Env :=
  ⟨some "sk-test", some "glpat-token", some "https://gitlab.example.com/api/v4",
   some "secret-token", some "https://azure.example.com", none, some "my-model"⟩

/-- All four required variables set, the optional Azure base URL unset. -/
def envNoAzure : Env :=
  ⟨some "sk-test", some "glpat-token", some "https://gitlab.example.com/api/v4",
   some "secret-token", none, none, none⟩

/-- An environment whose shared secret is unset at request time. -/
def envNoSecret : Env :=
  ⟨some "sk-test", some "glpat-token", some "https://gitlab.example.com/api/v4",
   none, none, none, none⟩

/-- The merge-request payload of the spec's concrete scenario. -/
def mrPayload : Json :=
  .obj [("object_kind", .str "merge_request"),
        ("object_attributes", .obj [("action", .str "open"), ("iid", .num 5)]),
        ("project", .obj [("id", .num 1), ("name", .str "p")])]

/-- A minimal push payload. -/
def pushPayload : Json :=
  .obj [("object_kind", .str "push"), ("project_id", .num 1),
        ("after", .str "abc123"), ("project", .obj [("name", .str "p")])]

/-- Everything succeeds: the fetch returns one change, generation returns
`"LGTM"`, the post returns 201. -/
def goodWorld : World :=
  ⟨200, .obj [("changes", .arr [.obj [("diff", .str "+x")]])], .ok "LGTM", 201⟩

/-- The generation call raises an exception whose text is `"boom"`, and
the comment post then fails with a 500 as well. -/
def genFailWorld : World :=
  ⟨200, .obj [("changes", .arr [.obj [("diff", .str "+x")]])], .error "boom", 500⟩

/-- The GitLab fetch fails with a 404. -/
def fetch404World : World :=
  ⟨404, .obj [], .ok "LGTM", 201⟩

/-- The fetch succeeds but its body has no `"changes"` key. -/
def noChangesWorld : World :=
  ⟨200, .obj [("files", .arr [])], .ok "LGTM", 201⟩

/-- A push fetch returning an empty change list, with failing generation. -/
def pushEmptyWorld : World :=
  ⟨200, .arr [], .error "boom", 201⟩

/-! ## Suffix predicate used to state the attribution-footer claim -/

/-- A string `s` ends with `suf` when `s = p ++ suf` for some prefix `p`. -/
def endsWithStr (s suf : String) : Prop := ∃ p, s = p ++ suf


/-- The body posted by the merge-request handler when generation raised an
exception with text `"boom"`. -/
def mrBoomAnswer : String := mr_fallback ++ footer ++ "\n\nError: " ++ "boom"

/-! ## Structural lemmas about the handlers -/

/-- Both `except` clauses of the merge-request handler leave the call
trace unchanged. -/
theorem mrCatch_calls (e : PyErr) (cs : List Call) : (mrCatch e cs).calls = cs := by
  cases e <;> rfl

/-- Both `except` clauses of the push handler leave the call trace
unchanged. -/
theorem pushCatch_calls (e : PyErr) (cs : List Call) : (pushCatch e cs).calls = cs := by
  cases e <;> rfl

/-- The `except` clauses of the merge-request handler answer 400 or 500,
never 403. -/
theorem mrCatch_code_ne (e : PyErr) (cs : List Call) : (mrCatch e cs).code ≠ 403 := by
  cases e <;> simp [mrCatch]

/-- The `except` clauses of the push handler answer 400 or 500, never
403. -/
theorem pushCatch_code_ne (e : PyErr) (cs : List Call) : (pushCatch e cs).code ≠ 403 := by
  cases e <;> simp [pushCatch]

/-- Exhaustive case analysis of `process_merge_request`: the outcome is a
caught exception before any call, the action short-circuit, the non-200
fetch error, a caught exception after the fetch, or the full success path
with its three outbound calls. -/
theorem mr_cases (env : Env) (w : World) (payload : Json) :
    (∃ e, process_merge_request env w payload = mrCatch e []) ∨
    (process_merge_request env w payload = ⟨"No es un MR de apertura", 200, []⟩) ∨
    (∃ pid iid, w.fetchStatus ≠ 200 ∧
       process_merge_request env w payload =
         ⟨"Error al obtener cambios del MR: " ++ toString w.fetchStatus, 500,
          [Call.fetch (mrChangesUrl env pid iid)]⟩) ∨
    (∃ pid iid e, w.fetchStatus = 200 ∧ mrExtractDiffs w.fetchBody = .error e ∧
       process_merge_request env w payload = mrCatch e [Call.fetch (mrChangesUrl env pid iid)]) ∨
    (∃ pid iid diffs, w.fetchStatus = 200 ∧ mrExtractDiffs w.fetchBody = .ok diffs ∧
       process_merge_request env w payload =
         ⟨"OK", 200,
          [Call.fetch (mrChangesUrl env pid iid),
           Call.generate "llama-3.1-8b-instant" [mrGenInput diffs],
           Call.postComment (mrNotesUrl env pid iid) (mrAnswer w.genResult)]⟩) := by
  unfold process_merge_request
  repeat' split
  all_goals first
    | exact Or.inl ⟨_, rfl⟩
    | exact Or.inr (Or.inl rfl)
    | exact Or.inr (Or.inr (Or.inl ⟨_, _, by assumption, rfl⟩))
    | exact Or.inr (Or.inr (Or.inr (Or.inl ⟨_, _, _, by omega, by assumption, rfl⟩)))
    | exact Or.inr (Or.inr (Or.inr (Or.inr ⟨_, _, _, by omega, by assumption, rfl⟩)))

/-- Exhaustive case analysis of `process_push_event`. -/
theorem push_cases (env : Env) (w : World) (payload : Json) :
    (∃ e, process_push_event env w payload = pushCatch e []) ∨
    (∃ pid cid, w.fetchStatus ≠ 200 ∧
       process_push_event env w payload =
         ⟨"Error al obtener diff del commit: " ++ toString w.fetchStatus, 500,
          [Call.fetch (pushCommitUrl env pid cid)]⟩) ∨
    (∃ pid cid e, w.fetchStatus = 200 ∧ pushChangesString w.fetchBody = .error e ∧
       process_push_event env w payload = pushCatch e [Call.fetch (pushCommitUrl env pid cid)]) ∨
    (∃ pid cid s, w.fetchStatus = 200 ∧ pushChangesString w.fetchBody = .ok s ∧
       process_push_event env w payload =
         ⟨"OK", 200,
          [Call.fetch (pushCommitUrl env pid cid),
           Call.generate (pyOrD env.OPENAI_API_MODEL "gpt-3.5-turbo")
             [push_system, pushUserContent s, push_assistant],
           Call.postComment (pushCommentsUrl env pid cid) (pushAnswer w.genResult)]⟩) := by
  unfold process_push_event
  repeat' split
  all_goals first
    | exact Or.inl ⟨_, rfl⟩
    | exact Or.inr (Or.inl ⟨_, _, by assumption, rfl⟩)
    | exact Or.inr (Or.inr (Or.inl ⟨_, _, _, by omega, by assumption, rfl⟩))
    | exact Or.inr (Or.inr (Or.inr ⟨_, _, _, by omega, by assumption, rfl⟩))

/-- Appending on the left preserves the suffix. -/
theorem endsWithStr_append_left (a : String) {b suf : String}
    (h : endsWithStr b suf) : endsWithStr (a ++ b) suf := by
  obtain ⟨p, rfl⟩ := h
  exact ⟨a ++ p, (String.append_assoc a p suf).symm⟩

/-- A string whose last character differs from the suffix's last character
does not end with that suffix. -/
theorem not_endsWithStr {s suf : String} {c d : Char}
    (hs : s.data.getLast? = some c) (hsuf : suf.data.getLast? = some d)
    (hcd : c ≠ d) : ¬ endsWithStr s suf := by
  rintro ⟨p, hp⟩
  rw [hp, String.data_append, List.getLast?_append, hsuf] at hs
  simp only [Option.or_some] at hs
  exact hcd ((Option.some.injEq d c ▸ hs : d = c)).symm

/-! ## Claims -/

/-- C1 (counterexample).  The claim says `GET /health` returns 200
whenever the four required configuration values are present and that the
optional alternate-deployment base URL does not affect the 200/500
outcome.  The code includes `azure_configured` in `all(status.values())`
(lines 312, 315), so with all four required values set but
`AZURE_OPENAI_API_BASE` unset the endpoint returns 500, where the claim
demands 200. -/
theorem C1_counterexample :
    envTruthy envNoAzure.OPENAI_API_KEY = true ∧
    envTruthy envNoAzure.GITLAB_TOKEN = true ∧
    envTruthy envNoAzure.GITLAB_URL = true ∧
    envTruthy envNoAzure.EXPECTED_GITLAB_TOKEN = true ∧
    envTruthy envNoAzure.AZURE_OPENAI_API_BASE = false ∧
    (health_check envNoAzure).2 = 500 :=
  ⟨rfl, rfl, rfl, rfl, rfl, rfl⟩

/-- C1 (amended).  `GET /health` returns 200 exactly when the four
required configuration values *and* the optional Azure base URL are all
present (truthy); in every other configuration it returns 500. -/
theorem C1_health (env : Env) :
    ((health_check env).2 = 200 ↔
      (envTruthy env.OPENAI_API_KEY = true ∧ envTruthy env.GITLAB_TOKEN = true ∧
       envTruthy env.GITLAB_URL = true ∧ envTruthy env.EXPECTED_GITLAB_TOKEN = true ∧
       envTruthy env.AZURE_OPENAI_API_BASE = true)) ∧
    ((health_check env).2 = 200 ∨ (health_check env).2 = 500) := by
  cases h1 : envTruthy env.OPENAI_API_KEY <;>
  cases h2 : envTruthy env.GITLAB_TOKEN <;>
  cases h3 : envTruthy env.GITLAB_URL <;>
  cases h4 : envTruthy env.EXPECTED_GITLAB_TOKEN <;>
  cases h5 : envTruthy env.AZURE_OPENAI_API_BASE <;>
  simp [health_check, h1, h2, h3, h4, h5]

/-- C2 (counterexample).  The claim says both handlers call generation
with the configured model identifier (default `"gpt-3.5-turbo"` when
unset).  With `OPENAI_API_MODEL` configured to `"my-model"`, the
merge-request handler's generation call still carries the hard-coded
model `"llama-3.1-8b-instant"` (line 168). -/
theorem C2_counterexample :
    envGood.OPENAI_API_MODEL = some "my-model" ∧
    genModels (process_merge_request envGood goodWorld mrPayload).calls =
      ["llama-3.1-8b-instant"] :=
  ⟨rfl, rfl⟩

/-- C2 (amended).  Only the push handler's generation call uses the
configured model identifier with the `"gpt-3.5-turbo"` fallback; the
merge-request handler's generation call always uses the fixed model name
`"llama-3.1-8b-instant"`, regardless of configuration. -/
theorem C2_model (env : Env) (w : World) (payload : Json) :
    (∀ m cs, Call.generate m cs ∈ (process_merge_request env w payload).calls →
       m = "llama-3.1-8b-instant") ∧
    (∀ m cs, Call.generate m cs ∈ (process_push_event env w payload).calls →
       m = pyOrD env.OPENAI_API_MODEL "gpt-3.5-turbo") := by
  constructor
  · intro m cs hm
    rcases mr_cases env w payload with ⟨e, he⟩ | he | ⟨pid, iid, _, he⟩ |
      ⟨pid, iid, e, _, _, he⟩ | ⟨pid, iid, diffs, _, _, he⟩ <;>
      rw [he] at hm <;> simp_all [mrCatch_calls]
  · intro m cs hm
    rcases push_cases env w payload with ⟨e, he⟩ | ⟨pid, cid, _, he⟩ |
      ⟨pid, cid, e, _, _, he⟩ | ⟨pid, cid, s, _, _, he⟩ <;>
      rw [he] at hm <;> simp_all [pushCatch_calls]

set_option maxRecDepth 20000 in
/-- C2 (witness).  With `OPENAI_API_MODEL = "my-model"` the push
handler's generation call uses exactly that configured model. -/
theorem C2_model_witness :
    "my-model" = pyOrD envGood.OPENAI_API_MODEL "gpt-3.5-turbo" :=
  (C2_model envGood pushEmptyWorld pushPayload).2 "my-model"
    [push_system, pushUserContent "", push_assistant] (by decide)


/-- C3 (counterexample).  The claim says the posted review text ends
with the attribution footer in the fallback branch as well.  On the code,
the fallback branch appends `f"\n\nError: {e}"` *after* the footer
(lines 178-179), so the posted body ends with the error text, not the
footer: with a generation failure whose text is `"boom"`, the
merge-request handler posts `mrBoomAnswer`, which does not end with the
footer. -/
theorem C3_counterexample :
    postBodies (process_merge_request envGood genFailWorld mrPayload).calls =
      [mrBoomAnswer] ∧
    ¬ endsWithStr mrBoomAnswer footer :=
  ⟨rfl, not_endsWithStr (c := 'm') (d := '.') (by decide) (by decide) (by decide)⟩

/-- C3 (amended).  In the success branch the posted review text ends
with the attribution footer; in the provider-failure branch it is the
apology, then the footer, then the literal error text — so there the
footer is present but is *not* the suffix (followed by the error text). -/
theorem C3_footer (env : Env) (w : World) (payload : Json) (u b : String) :
    (Call.postComment u b ∈ (process_merge_request env w payload).calls →
       (∀ t, w.genResult = .ok t → endsWithStr b footer) ∧
       (∀ e, w.genResult = .error e →
          b = mr_fallback ++ footer ++ "\n\nError: " ++ e)) ∧
    (Call.postComment u b ∈ (process_push_event env w payload).calls →
       (∀ t, w.genResult = .ok t → endsWithStr b footer) ∧
       (∀ e, w.genResult = .error e →
          b = push_fallback ++ footer ++ "\n\nError: " ++ e)) := by
  constructor
  · intro hm
    rcases mr_cases env w payload with ⟨e, he⟩ | he | ⟨pid, iid, _, he⟩ |
      ⟨pid, iid, e, _, _, he⟩ | ⟨pid, iid, diffs, _, _, he⟩ <;>
      rw [he] at hm <;> simp [mrCatch_calls] at hm
    obtain ⟨-, rfl⟩ := hm
    refine ⟨fun t ht => ?_, fun e hee => ?_⟩
    · rw [ht]
      exact ⟨pyStrip t, rfl⟩
    · rw [hee]
      rfl
  · intro hm
    rcases push_cases env w payload with ⟨e, he⟩ | ⟨pid, cid, _, he⟩ |
      ⟨pid, cid, e, _, _, he⟩ | ⟨pid, cid, s, _, _, he⟩ <;>
      rw [he] at hm <;> simp [pushCatch_calls] at hm
    obtain ⟨-, rfl⟩ := hm
    refine ⟨fun t ht => ?_, fun e hee => ?_⟩
    · rw [ht]
      exact ⟨pyStrip t ++ "\n\nPara referencia, me dieron las siguientes preguntas: \n" ++
        String.join ((pySplitNl push_questions).map (fun q => "\n" ++ q)), rfl⟩
    · rw [hee]
      rfl

set_option maxRecDepth 20000 in
/-- C3 (witness).  The fallback body the merge-request handler posts on
a `"boom"` generation failure is exactly apology ++ footer ++ error
text. -/
theorem C3_footer_witness :
    mrBoomAnswer = mr_fallback ++ footer ++ "\n\nError: " ++ "boom" :=
  ((C3_footer envGood genFailWorld mrPayload
      (mrNotesUrl envGood (.num 1) (.num 5)) mrBoomAnswer).1 (by decide)).2 "boom" rfl

/-- C4 (confirmed).  Any request whose `X-Gitlab-Token` header differs
from the configured secret (a missing header included) is answered
`"No autorizado"`/403, with no outbound call and a response independent
of the request body (lines 66-75). -/
theorem C4_auth_reject (env : Env) (w : World) (req : Request)
    (h : req.xGitlabToken ≠ env.EXPECTED_GITLAB_TOKEN) :
    webhook env w req = ⟨"No autorizado", 403, []⟩ := by
  unfold webhook
  rw [if_pos h]

/-- C4 (witness).  A request with no token header against the
configured secret `"secret-token"` is rejected with 403. -/
theorem C4_auth_reject_witness :
    webhook envGood goodWorld ⟨none, some mrPayload⟩ = ⟨"No autorizado", 403, []⟩ :=
  C4_auth_reject envGood goodWorld ⟨none, some mrPayload⟩ (by decide)

/-- C5 (confirmed).  An authenticated, non-empty JSON object payload
whose `object_kind` is neither `"merge_request"` nor `"push"` (a missing
key included) is answered 200 with the explanatory
`"Tipo de evento no soportado: ..."` body and no outbound call
(lines 88-99). -/
theorem C5_unsupported_kind (env : Env) (w : World) (tok : Option String)
    (fs : List (String × Json))
    (hauth : tok = env.EXPECTED_GITLAB_TOKEN) (hne : fs ≠ [])
    (h1 : optIsStr (findField fs "object_kind") "merge_request" = false)
    (h2 : optIsStr (findField fs "object_kind") "push" = false) :
    webhook env w ⟨tok, some (.obj fs)⟩ =
      ⟨"Tipo de evento no soportado: " ++ optFStr (findField fs "object_kind"),
       200, []⟩ := by
  unfold webhook webhook_route
  rw [if_neg (not_not_intro hauth)]
  simp [Json.pyTruthy, Json.pyGet, hne, h1, h2]

/-- C5 (witness).  An authenticated `tag_push` event gets the 200
explanatory response and no outbound call. -/
theorem C5_unsupported_kind_witness :
    webhook envGood goodWorld
        ⟨some "secret-token", some (.obj [("object_kind", .str "tag_push")])⟩ =
      ⟨"Tipo de evento no soportado: " ++
        optFStr (findField [("object_kind", Json.str "tag_push")] "object_kind"),
       200, []⟩ :=
  C5_unsupported_kind envGood goodWorld (some "secret-token")
    [("object_kind", .str "tag_push")] rfl (by simp) rfl rfl

/-- C6 (confirmed).  When the GitLab fetch answers anything other than
200, each handler performs no further outbound call (its trace holds only
fetches), and if the fetch was made at all the handler returns 500 with
the upstream status number embedded in the body (lines 126-128 and
223-225). -/
theorem C6_fetch_not_200 (env : Env) (w : World) (payload : Json)
    (h : w.fetchStatus ≠ 200) :
    ((∀ c ∈ (process_merge_request env w payload).calls, isFetch c = true) ∧
     ∀ u, Call.fetch u ∈ (process_merge_request env w payload).calls →
       process_merge_request env w payload =
         ⟨"Error al obtener cambios del MR: " ++ toString w.fetchStatus, 500,
          [Call.fetch u]⟩) ∧
    ((∀ c ∈ (process_push_event env w payload).calls, isFetch c = true) ∧
     ∀ u, Call.fetch u ∈ (process_push_event env w payload).calls →
       process_push_event env w payload =
         ⟨"Error al obtener diff del commit: " ++ toString w.fetchStatus, 500,
          [Call.fetch u]⟩) := by
  constructor
  · rcases mr_cases env w payload with ⟨e, he⟩ | he | ⟨pid, iid, _, he⟩ |
      ⟨pid, iid, e, h200, _, he⟩ | ⟨pid, iid, diffs, h200, _, he⟩
    · exact ⟨by rw [he]; simp [mrCatch_calls], by rw [he]; simp [mrCatch_calls]⟩
    · exact ⟨by rw [he]; simp, by rw [he]; simp⟩
    · refine ⟨?_, ?_⟩
      · intro c hc
        rw [he] at hc
        simp at hc
        subst hc
        rfl
      · intro u hu
        rw [he] at hu
        simp at hu
        rw [he, hu]
    · exact absurd h200 h
    · exact absurd h200 h
  · rcases push_cases env w payload with ⟨e, he⟩ | ⟨pid, cid, _, he⟩ |
      ⟨pid, cid, e, h200, _, he⟩ | ⟨pid, cid, s, h200, _, he⟩
    · exact ⟨by rw [he]; simp [pushCatch_calls], by rw [he]; simp [pushCatch_calls]⟩
    · refine ⟨?_, ?_⟩
      · intro c hc
        rw [he] at hc
        simp at hc
        subst hc
        rfl
      · intro u hu
        rw [he] at hu
        simp at hu
        rw [he, hu]
    · exact absurd h200 h
    · exact absurd h200 h

/-- C6 (witness).  A 404 on the merge-request change fetch yields the
500 response embedding `404`, after the single fetch call. -/
theorem C6_fetch_not_200_witness :
    process_merge_request envGood fetch404World mrPayload =
      ⟨"Error al obtener cambios del MR: " ++ toString fetch404World.fetchStatus, 500,
        [Call.fetch (mrChangesUrl envGood (.num 1) (.num 5))]⟩ :=
  (C6_fetch_not_200 envGood fetch404World mrPayload (by decide)).1.2
    (mrChangesUrl envGood (.num 1) (.num 5)) (by decide)

/-- C7 (confirmed).  When the generation call raises an exception with
text `e`, a handler that reached generation still answers `"OK"`/200 and
posts a comment whose body is the fixed apology, the footer, and the
literal error text (lines 175-179, 196 and 272-276, 293). -/
theorem C7_gen_failure (env : Env) (w : World) (payload : Json) (e : String)
    (hg : w.genResult = .error e) :
    (∀ m cs, Call.generate m cs ∈ (process_merge_request env w payload).calls →
       (process_merge_request env w payload).body = "OK" ∧
       (process_merge_request env w payload).code = 200 ∧
       ∃ u, Call.postComment u (mr_fallback ++ footer ++ "\n\nError: " ++ e) ∈
              (process_merge_request env w payload).calls) ∧
    (∀ m cs, Call.generate m cs ∈ (process_push_event env w payload).calls →
       (process_push_event env w payload).body = "OK" ∧
       (process_push_event env w payload).code = 200 ∧
       ∃ u, Call.postComment u (push_fallback ++ footer ++ "\n\nError: " ++ e) ∈
              (process_push_event env w payload).calls) := by
  constructor
  · intro m cs hm
    rcases mr_cases env w payload with ⟨e2, he⟩ | he | ⟨pid, iid, _, he⟩ |
      ⟨pid, iid, e2, _, _, he⟩ | ⟨pid, iid, diffs, _, _, he⟩ <;>
      rw [he] at hm <;> simp [mrCatch_calls] at hm
    rw [he, hg]
    refine ⟨rfl, rfl, mrNotesUrl env pid iid, ?_⟩
    simp [mrAnswer]
  · intro m cs hm
    rcases push_cases env w payload with ⟨e2, he⟩ | ⟨pid, cid, _, he⟩ |
      ⟨pid, cid, e2, _, _, he⟩ | ⟨pid, cid, s, _, _, he⟩ <;>
      rw [he] at hm <;> simp [pushCatch_calls] at hm
    rw [he, hg]
    refine ⟨rfl, rfl, pushCommentsUrl env pid cid, ?_⟩
    simp [pushAnswer]

set_option maxRecDepth 40000 in
/-- C7 (witness).  A `"boom"` generation failure on the merge-request
path: the handler answers `"OK"`/200 and posts the apology body. -/
theorem C7_gen_failure_witness :
    (process_merge_request envGood genFailWorld mrPayload).body = "OK" ∧
    (process_merge_request envGood genFailWorld mrPayload).code = 200 ∧
    ∃ u, Call.postComment u (mr_fallback ++ footer ++ "\n\nError: " ++ "boom") ∈
           (process_merge_request envGood genFailWorld mrPayload).calls :=
  (C7_gen_failure envGood genFailWorld mrPayload "boom" rfl).1
    "llama-3.1-8b-instant" [mrGenInput ["+x"]]
    (List.mem_cons_of_mem _ (List.mem_cons_self _ _))

/-- C8 (confirmed).  The comment-post status never influences a
handler: the result is unchanged under any `postStatus`, and whenever a
comment post appears in the trace the response is `"OK"`/200
(lines 188-196 and 285-293 only log the non-201 case). -/
theorem C8_post_ignored (env : Env) (w : World) (payload : Json) (n : Nat) :
    (process_merge_request env ⟨w.fetchStatus, w.fetchBody, w.genResult, n⟩ payload =
       process_merge_request env w payload ∧
     process_push_event env ⟨w.fetchStatus, w.fetchBody, w.genResult, n⟩ payload =
       process_push_event env w payload) ∧
    (∀ u b, Call.postComment u b ∈ (process_merge_request env w payload).calls →
       (process_merge_request env w payload).body = "OK" ∧
       (process_merge_request env w payload).code = 200) ∧
    (∀ u b, Call.postComment u b ∈ (process_push_event env w payload).calls →
       (process_push_event env w payload).body = "OK" ∧
       (process_push_event env w payload).code = 200) := by
  refine ⟨⟨rfl, rfl⟩, ?_, ?_⟩
  · intro u b hm
    rcases mr_cases env w payload with ⟨e, he⟩ | he | ⟨pid, iid, _, he⟩ |
      ⟨pid, iid, e, _, _, he⟩ | ⟨pid, iid, diffs, _, _, he⟩ <;>
      rw [he] at hm <;> simp [mrCatch_calls] at hm
    rw [he]
    exact ⟨rfl, rfl⟩
  · intro u b hm
    rcases push_cases env w payload with ⟨e, he⟩ | ⟨pid, cid, _, he⟩ |
      ⟨pid, cid, e, _, _, he⟩ | ⟨pid, cid, s, _, _, he⟩ <;>
      rw [he] at hm <;> simp [pushCatch_calls] at hm
    rw [he]
    exact ⟨rfl, rfl⟩

set_option maxRecDepth 40000 in
/-- C8 (witness).  With the comment post failing (status 500), the
merge-request handler still answers `"OK"`/200. -/
theorem C8_post_ignored_witness :
    (process_merge_request envGood genFailWorld mrPayload).body = "OK" ∧
    (process_merge_request envGood genFailWorld mrPayload).code = 200 :=
  (C8_post_ignored envGood genFailWorld mrPayload 500).2.1
    (mrNotesUrl envGood (.num 1) (.num 5)) mrBoomAnswer
    (List.mem_cons_of_mem _ (List.mem_cons_of_mem _ (List.mem_cons_self _ _)))

/-- The withheld-exception codes of the merge-request handler are never
403. -/
theorem process_merge_request_code (env : Env) (w : World) (payload : Json) :
    (process_merge_request env w payload).code ≠ 403 := by
  rcases mr_cases env w payload with ⟨e, he⟩ | he | ⟨pid, iid, _, he⟩ |
    ⟨pid, iid, e, _, _, he⟩ | ⟨pid, iid, diffs, _, _, he⟩ <;> rw [he] <;>
    first
      | exact mrCatch_code_ne _ _
      | simp

/-- The push handler never answers 403. -/
theorem process_push_event_code (env : Env) (w : World) (payload : Json) :
    (process_push_event env w payload).code ≠ 403 := by
  rcases push_cases env w payload with ⟨e, he⟩ | ⟨pid, cid, _, he⟩ |
    ⟨pid, cid, e, _, _, he⟩ | ⟨pid, cid, s, _, _, he⟩ <;> rw [he] <;>
    first
      | exact pushCatch_code_ne _ _
      | simp

/-- The post-authentication part of the webhook never answers 403. -/
theorem webhook_route_code (env : Env) (w : World) (req : Request) :
    (webhook_route env w req).code ≠ 403 := by
  unfold webhook_route
  repeat' split
  all_goals first
    | exact process_merge_request_code _ _ _
    | exact process_push_event_code _ _ _
    | simp

/-- C9 (confirmed).  When `EXPECTED_GITLAB_TOKEN` is unset at request
time and the request carries no `X-Gitlab-Token` header, the equality
check `None != None` fails (line 73), so the request is *not* rejected
with 403: it proceeds to body processing — authentication is bypassed
rather than failing closed. -/
theorem C9_auth_bypass (env : Env) (w : World) (req : Request)
    (h1 : env.EXPECTED_GITLAB_TOKEN = none) (h2 : req.xGitlabToken = none) :
    webhook env w req = webhook_route env w req ∧
    (webhook env w req).code ≠ 403 := by
  have he : ¬(req.xGitlabToken ≠ env.EXPECTED_GITLAB_TOKEN) :=
    not_not_intro (h2.trans h1.symm)
  refine ⟨?_, ?_⟩ <;> unfold webhook <;> rw [if_neg he]
  exact webhook_route_code env w req

/-- C9 (witness).  Secret unset, header absent: the request is
processed, not rejected. -/
theorem C9_auth_bypass_witness :
    webhook envNoSecret goodWorld ⟨none, some mrPayload⟩ =
      webhook_route envNoSecret goodWorld ⟨none, some mrPayload⟩ ∧
    (webhook envNoSecret goodWorld ⟨none, some mrPayload⟩).code ≠ 403 :=
  C9_auth_bypass envNoSecret goodWorld ⟨none, some mrPayload⟩ rfl rfl

/-- C10 (confirmed).  If the merge-request fetch answers 200 but
extracting `changes[].diff` from its JSON body raises `KeyError k`
(the `"changes"` key or some `"diff"` key missing), the outer
`except KeyError` (lines 198-200) answers 400 with
`"Campo faltante en el payload: "` and the repr of the missing key — a
malformed upstream body is reported as a payload error, not a 500. -/
theorem C10_missing_key (env : Env) (w : World) (payload : Json) (k : String)
    (h200 : w.fetchStatus = 200)
    (hk : mrExtractDiffs w.fetchBody = .error (.keyError k)) :
    ∀ u, Call.fetch u ∈ (process_merge_request env w payload).calls →
      process_merge_request env w payload =
        ⟨"Campo faltante en el payload: " ++ pyReprStr k, 400, [Call.fetch u]⟩ := by
  intro u hu
  rcases mr_cases env w payload with ⟨e, he⟩ | he | ⟨pid, iid, hne, he⟩ |
    ⟨pid, iid, e, _, herr, he⟩ | ⟨pid, iid, diffs, _, hok, he⟩
  · rw [he] at hu
    simp [mrCatch_calls] at hu
  · rw [he] at hu
    simp at hu
  · exact absurd h200 hne
  · have hek : e = PyErr.keyError k := by
      injection herr.symm.trans hk
    subst hek
    rw [he] at hu
    simp [mrCatch_calls] at hu
    rw [he, hu]
    rfl
  · rw [hok] at hk
    simp at hk

/-- C10 (witness).  A 200 fetch whose body lacks the `"changes"` key
makes the merge-request handler answer 400 naming `'changes'`. -/
theorem C10_missing_key_witness :
    process_merge_request envGood noChangesWorld mrPayload =
      ⟨"Campo faltante en el payload: " ++ pyReprStr "changes", 400,
        [Call.fetch (mrChangesUrl envGood (.num 1) (.num 5))]⟩ :=
  C10_missing_key envGood noChangesWorld mrPayload "changes" rfl rfl
    (mrChangesUrl envGood (.num 1) (.num 5)) (by decide)
